import Mathlib

/-!
Verification development for the Sentinel ingestion-to-disbursement pipeline.

The Python backend (`backend/agent.py`, `backend/main.py`,
`backend/services/ngo_manager.py`, `backend/services/ingestion.py`,
`backend/services/onchain.py`) is shallowly embedded below.  Pure string and
arithmetic logic is translated directly; effectful boundaries (HTTP fetches,
the external AI judge, the blockchain sink, database writes) are made explicit
inputs: each external interaction becomes a parameter describing its outcome,
and the surrounding Python control flow (try/except dispatch on those
outcomes) is translated faithfully.  Python floats are modelled as rationals;
Python machine-independent ints as Nat/Int.
-/

set_option maxRecDepth 8000

/-! ## Python-style string primitives -/

/-- Python whitespace class used by `str.strip` and the regex `\s`
(space, tab, newline, carriage return, vertical tab, form feed).
Non-ASCII whitespace is not needed by any claim. -/
def isPySpace (c : Char) : Bool :=
  c = ' ' || c = '\t' || c = '\n' || c = '\r' || c.toNat = 11 || c.toNat = 12

/-- Python `str.strip()` on a character list. -/
def pyStripL (l : List Char) : List Char :=
  ((l.dropWhile isPySpace).reverse.dropWhile isPySpace).reverse

/-- Python `str.strip()`. -/
def pyStrip (s : String) : String := String.mk (pyStripL s.data)

/-- Python `str.lower()` (ASCII case mapping, which is all the sources use). -/
def lowerS (s : String) : String := String.mk (s.data.map Char.toLower)

/-- Python `str.upper()` (ASCII case mapping). -/
def upperS (s : String) : String := String.mk (s.data.map Char.toUpper)

/-- Does the list `p` occur at the head of `l`? -/
def leadsWith : List Char → List Char → Bool
  | [], _ => true
  | _ :: _, [] => false
  | a :: as, b :: bs => a = b && leadsWith as bs

/-- Substring occurrence on character lists. -/
def hasSub (n : List Char) : List Char → Bool
  | [] => leadsWith n []
  | c :: t => leadsWith n (c :: t) || hasSub n t

/-- Python `needle in hay` substring test. -/
def pyIn (needle hay : String) : Bool := hasSub needle.data hay.data

/-- Helper for `collapseWs`: `prevSpace` records whether the previous
character was whitespace (already emitted as a single space). -/
def collapseWsAux : Bool → List Char → List Char
  | _, [] => []
  | prevSpace, c :: cs =>
    if isPySpace c then
      if prevSpace then collapseWsAux true cs
      else ' ' :: collapseWsAux true cs
    else c :: collapseWsAux false cs

/-- Collapse every nonempty run of whitespace to a single space
(the effect of `re.sub(r"\s+", " ", s)`). -/
def collapseWs (l : List Char) : List Char := collapseWsAux false l

/-- Python `str[:n]` prefix slice. -/
def takeS (n : Nat) (s : String) : String := String.mk (s.data.take n)

/-! ## SHA-1 (`hashlib.sha1`), implemented over byte lists, words as Nat mod 2^32 -/

def w32 (n : Nat) : Nat := n % 4294967296

/-- Rotate a 32-bit word (given `n < 2^32`) left by `b` bits. -/
def rotl32 (b n : Nat) : Nat := (n * 2 ^ b) % 4294967296 + n / 2 ^ (32 - b)

/-- SHA-1 message padding: append `0x80`, zeros, and the 64-bit big-endian
bit length, reaching a multiple of 64 bytes. -/
def sha1pad (msg : List Nat) : List Nat :=
  let len := msg.length
  let zeros := (119 - len % 64) % 64
  let ml := (8 * len) % 18446744073709551616
  msg ++ 128 :: List.replicate zeros 0 ++
    [ml / 2 ^ 56 % 256, ml / 2 ^ 48 % 256, ml / 2 ^ 40 % 256, ml / 2 ^ 32 % 256,
     ml / 2 ^ 24 % 256, ml / 2 ^ 16 % 256, ml / 2 ^ 8 % 256, ml % 256]

/-- Fuel-indexed splitter (structural recursion so that the kernel can
evaluate it; the fuel always suffices because each step consumes at least
one element). -/
def chunks64Aux : Nat → List Nat → List (List Nat)
  | 0, _ => []
  | _, [] => []
  | fuel + 1, x :: xs => (x :: xs).take 64 :: chunks64Aux fuel ((x :: xs).drop 64)

/-- Split a byte list into 64-byte chunks. -/
def chunks64 (l : List Nat) : List (List Nat) := chunks64Aux (l.length + 1) l

/-- The sixteen 32-bit big-endian words of one 64-byte chunk. -/
def chunkWords (c : List Nat) : List Nat :=
  (List.range 16).map fun i =>
    c.getD (4 * i) 0 * 16777216 + c.getD (4 * i + 1) 0 * 65536 +
      c.getD (4 * i + 2) 0 * 256 + c.getD (4 * i + 3) 0

/-- Extend the 16 chunk words to the 80-word message schedule. -/
def extendWords (w : List Nat) : List Nat :=
  (List.range 64).foldl
    (fun acc _ =>
      let n := acc.length
      acc ++ [rotl32 1 ((acc.getD (n - 3) 0 ^^^ acc.getD (n - 8) 0) ^^^
        (acc.getD (n - 14) 0 ^^^ acc.getD (n - 16) 0))])
    w

/-- The SHA-1 round function. -/
def sha1f (i b c d : Nat) : Nat :=
  if i < 20 then (b &&& c) ||| ((b ^^^ 4294967295) &&& d)
  else if i < 40 then b ^^^ c ^^^ d
  else if i < 60 then (b &&& c) ||| (b &&& d) ||| (c &&& d)
  else b ^^^ c ^^^ d

/-- The SHA-1 round constants. -/
def sha1k (i : Nat) : Nat :=
  if i < 20 then 1518500249
  else if i < 40 then 1859775393
  else if i < 60 then 2400959708
  else 3395469782

/-- Process one 64-byte chunk. -/
def sha1chunk (st : Nat × Nat × Nat × Nat × Nat) (c : List Nat) :
    Nat × Nat × Nat × Nat × Nat :=
  let w := extendWords (chunkWords c)
  let (h0, h1, h2, h3, h4) := st
  let (a, b, c2, d, e) :=
    (List.range 80).foldl
      (fun (s : Nat × Nat × Nat × Nat × Nat) i =>
        let (a, b, c2, d, e) := s
        let temp := w32 (rotl32 5 a + sha1f i b c2 d + e + sha1k i + w.getD i 0)
        (temp, a, rotl32 30 b, c2, d))
      (h0, h1, h2, h3, h4)
  (w32 (h0 + a), w32 (h1 + b), w32 (h2 + c2), w32 (h3 + d), w32 (h4 + e))

/-- SHA-1 digest of a byte list as five 32-bit words. -/
def sha1 (msg : List Nat) : Nat × Nat × Nat × Nat × Nat :=
  (chunks64 (sha1pad msg)).foldl sha1chunk
    (1732584193, 4023233417, 2562383102, 271733878, 3285377520)

/-- Lower-case hex digit for a nibble. -/
def hexChar (n : Nat) : Char :=
  if n < 10 then Char.ofNat (48 + n) else Char.ofNat (87 + n)

/-- Eight hex digits of a 32-bit word, big-endian. -/
def toHex8 (n : Nat) : List Char :=
  (List.range 8).map fun i => hexChar (n / 16 ^ (7 - i) % 16)

/-- `hashlib.sha1(...).hexdigest()` as a 40-character list. -/
def sha1hexChars (msg : List Nat) : List Char :=
  let (a, b, c, d, e) := sha1 msg
  toHex8 a ++ toHex8 b ++ toHex8 c ++ toHex8 d ++ toHex8 e

/-- UTF-8 encoding of one character (Python `str.encode()`). -/
def utf8Bytes (c : Char) : List Nat :=
  let n := c.toNat
  if n < 128 then [n]
  else if n < 2048 then [192 + n / 64, 128 + n % 64]
  else if n < 65536 then [224 + n / 4096, 128 + n / 64 % 64, 128 + n % 64]
  else [240 + n / 262144, 128 + n / 4096 % 64, 128 + n / 64 % 64, 128 + n % 64]

/-- Python `str.encode()`. -/
def strBytes (s : String) : List Nat := (s.data.map utf8Bytes).flatten

/-- SHA-1 self-check against the standard test vector for "abc". -/
theorem sha1_abc :
    String.mk (sha1hexChars (strBytes "abc")) =
      "a9993e364706816aba3e25717850c26c9cd0d89d" := by decide

/-! ## Numeric helpers (Python int()/str() on numbers, decimal rendering) -/

/-- Python `str` of an int. -/
def intRepr (i : Int) : String :=
  if i < 0 then "-" ++ Nat.repr i.natAbs else Nat.repr i.natAbs

/-- Python `int()` truncation toward zero of a rational (`Int.div` is
T-division, truncating toward zero, and a Rat's den is positive). -/
def pyTrunc (q : Rat) : Int := Int.tdiv q.num (q.den : Int)

/-- Round `num / den` (with `den > 0`) to the nearest integer, ties to
even, in pure integer arithmetic: `f` is the floor and `2r` is compared
against `den` where `r` is the remainder. -/
def rheAux (num den : Int) : Int :=
  let f := Int.fdiv num den
  let rcmp := 2 * (num - f * den)
  if rcmp < den then f
  else if den < rcmp then f + 1
  else if f % 2 = 0 then f else f + 1

/-- Round to the nearest integer, ties to even (the rounding CPython's
float formatting applies). -/
def roundHalfEven (x : Rat) : Int := rheAux x.num (x.den : Int)

/-- `x * 10^4`, rounded half-to-even: the integer whose digits appear after
formatting `x` with `"%.4f"`. -/
def rhe4 (x : Rat) : Int := rheAux (x.num * 10000) (x.den : Int)

/-- Zero-padded 4-digit decimal rendering of `m % 10000`. -/
def pad4 (m : Nat) : List Char :=
  [Char.ofNat (48 + m / 1000 % 10), Char.ofNat (48 + m / 100 % 10),
   Char.ofNat (48 + m / 10 % 10), Char.ofNat (48 + m % 10)]

/-- Python `f"{x:.4f}"` on a rational: sign (negative values keep their
sign even when they round to zero, as CPython float formatting does),
integer digits, a dot, and exactly four fractional digits. -/
def fmt4 (q : Rat) : String :=
  (if q < 0 then "-" else "") ++
    Nat.repr ((rhe4 q).natAbs / 10000) ++ "." ++ String.mk (pad4 ((rhe4 q).natAbs % 10000))

/-! ## Decision oracle gateway (`backend/agent.py`) -/

/-- Operating mode (`SENTINEL_MODE`). -/
inductive Mode
  | LIVE
  | MOCK
deriving DecidableEq

/-- The fields of the raw telemetry dict that `_intelligent_fallback`
inspects.  `text` stands for Python's `str(raw_data)` rendering, used only
for the substring probes `"active" in str(raw_data).lower()` etc. -/
structure RawData where
  severity : Option String := none
  alert_level : Option String := none
  magnitude : Option Rat := none
  text : String := ""
deriving DecidableEq

/-- The decision dict produced by the gateway.  Fields are optional because
a live-judge response that parsed as JSON may omit any of them; the mock
and fallback paths always populate all five. -/
structure Decision where
  authorization : Option String
  decision : Option String
  confidence_score : Option Int
  reasoning : Option String
  payout_amount_usdc : Option String
deriving DecidableEq

/-- A judge response that survived JSON parsing, as the gateway reads it:
each field is `str(...)`-coercible content keyed in the parsed dict
(`none` = key absent). -/
structure ParsedJudge where
  authorization : Option String := none
  decision : Option String := none
  confidence_score : Option Int := none
  reasoning : Option String := none
  payout_amount_usdc : Option String := none
deriving DecidableEq

/-- Outcome of the live judge call: wall-clock timeout of the future,
transport failure from the SDK, a response whose text fails the
code-fence cleanup + `json.loads` step, or a successfully parsed dict. -/
inductive JudgeOutcome
  | timeout
  | transportError
  | badParse
  | parsed (p : ParsedJudge)
deriving DecidableEq

/-- Keyword test of the mock/fallback earthquake branch
(`"quake" in dt or "earthquake" in dt or "eq" in dt`). -/
def quakeKw (dtLower : String) : Bool :=
  pyIn "quake" dtLower || pyIn "earthquake" dtLower || pyIn "eq" dtLower

/-- Keyword test of the mock/fallback fire branch. -/
def fireKw (dtLower : String) : Bool :=
  pyIn "fire" dtLower || pyIn "volcano" dtLower || pyIn "wildfire" dtLower

/-- Keyword test of the mock storm branch. -/
def stormKw (dtLower : String) : Bool :=
  pyIn "storm" dtLower || pyIn "hurricane" dtLower || pyIn "cyclone" dtLower ||
    pyIn "typhoon" dtLower

/-- Keyword test of the mock flood branch (`"fl"`/`"ts"` by equality). -/
def floodKwMock (dtLower : String) : Bool :=
  pyIn "flood" dtLower || dtLower = "fl" || dtLower = "ts" || pyIn "tsunami" dtLower

/-- Keyword test of the fallback storm/flood branch (line 198 of agent.py). -/
def stormKwFallback (dtLower : String) : Bool :=
  pyIn "storm" dtLower || pyIn "hurricane" dtLower || pyIn "cyclone" dtLower ||
    pyIn "tsunami" dtLower || pyIn "flood" dtLower || dtLower = "fl"

/-- The deterministic MOCK-mode branch of `get_ai_decision`
(agent.py lines 31-76): a fixed lookup on `disaster_type.lower()`. -/
def mockDecision (disaster_type : String) : Decision :=
  let dtLower := lowerS disaster_type
  if quakeKw dtLower then
    { authorization := some "YES", decision := some "PAYOUT", confidence_score := some 98,
      reasoning := some "Magnitude 8.2 earthquake centered in Tokyo metropolitan area. Population density exceeds 14M. USGS confirms P-wave detection. Catastrophic infrastructure damage projected. Parametric trigger: ACTIVATED.",
      payout_amount_usdc := some "8200" }
  else if fireKw dtLower then
    { authorization := some "YES", decision := some "PAYOUT", confidence_score := some 94,
      reasoning := some "NASA EONET thermal imaging confirms 450°C anomaly at Yellowstone caldera. 12km ash plume verified by NOAA. Seismic swarm activity persisting >24h. Population at risk: 150K within 50km radius. Parametric trigger: ACTIVATED.",
      payout_amount_usdc := some "5600" }
  else if stormKw dtLower then
    { authorization := some "YES", decision := some "PAYOUT", confidence_score := some 92,
      reasoning := some "Category 5 hurricane with 180mph sustained winds making landfall. NHC tracking confirms direct path to Miami-Dade (pop. 2.7M). Storm surge 15ft projected. Mandatory evacuation zones A/B/C activated. Parametric trigger: ACTIVATED.",
      payout_amount_usdc := some "9500" }
  else if floodKwMock dtLower then
    { authorization := some "YES", decision := some "PAYOUT", confidence_score := some 87,
      reasoning := some "Flood/tsunami event confirmed by multiple sensors. Coastal population centers at significant risk. Emergency response protocols activated. Parametric trigger: ACTIVATED.",
      payout_amount_usdc := some "7200" }
  else
    { authorization := some "NO", decision := some "DENY", confidence_score := some 25,
      reasoning := some ("Event type '" ++ disaster_type ++ "' does not meet parametric thresholds. Severity insufficient for autonomous payout. Manual review recommended."),
      payout_amount_usdc := some "0" }

/-- `_intelligent_fallback` (agent.py lines 162-215): the local rule-based
evaluator used when the live judge is unavailable or fails. -/
def _intelligent_fallback (disaster_type : String) (raw : RawData)
    (location : String) : Decision :=
  let dtLower := lowerS disaster_type
  let severity := lowerS (raw.severity.getD (raw.alert_level.getD ""))
  let isRedAlert : Bool :=
    severity = "red" || severity = "severe" || severity = "extreme" || severity = "warning"
  let rawLower := lowerS raw.text
  if quakeKw dtLower && (raw.magnitude.getD 0 ≥ 7 || isRedAlert) then
    let magnitude := raw.magnitude.getD 0
    { authorization := some "YES", decision := some "PAYOUT", confidence_score := some 85,
      reasoning := some ("Significant seismic event detected at " ++ location ++
        ". Severity: " ++ severity ++ ". Population centers potentially affected."),
      payout_amount_usdc := some (intRepr (min 10000
        (if magnitude ≠ 0 then pyTrunc (magnitude * 1000) else 6500))) }
  else if fireKw dtLower && (isRedAlert || pyIn "active" rawLower) then
    { authorization := some "YES", decision := some "PAYOUT", confidence_score := some 82,
      reasoning := some ("Thermal anomaly/fire event confirmed at " ++ location ++
        ". Alert level: " ++ severity ++ ". Immediate risk to infrastructure."),
      payout_amount_usdc := some "5500" }
  else if stormKwFallback dtLower &&
      (isRedAlert || pyIn "evacuation" rawLower || pyIn "warning" rawLower) then
    { authorization := some "YES", decision := some "PAYOUT", confidence_score := some 88,
      reasoning := some ("Severe weather event at " ++ location ++
        ". Official warnings issued. Population at significant risk."),
      payout_amount_usdc := some "7200" }
  else
    let sevShow := if severity = "" then "unknown" else severity
    { authorization := some "NO", decision := some "DENY", confidence_score := some 45,
      reasoning := some ("Event at " ++ location ++
        " does not meet catastrophic thresholds. Severity level: " ++ sevShow ++
        ". Monitoring continues."),
      payout_amount_usdc := some "0" }

/-- The post-parse coercion of a live judge response
(agent.py lines 141-156): authorization is coerced to exactly YES/NO,
decision is recomputed from it, and the payout amount is zeroed on NO. -/
def coerceParsed (p : ParsedJudge) : Decision :=
  let auth0 := upperS (pyStrip (p.authorization.getD ""))
  let auth := if auth0 = "YES" || auth0 = "NO" then auth0 else "NO"
  let dec := if auth = "YES" then "PAYOUT" else "DENY"
  { authorization := some auth
    decision := some dec
    confidence_score := p.confidence_score
    reasoning := p.reasoning
    payout_amount_usdc := if auth = "NO" then some "0" else p.payout_amount_usdc }

/-- `get_ai_decision` (agent.py lines 26-159).  The effectful boundary —
the Gemini call — is abstracted as the `judge` outcome; the try/except
dispatch around it is translated branch by branch. -/
def get_ai_decision (mode : Mode) (geminiConfigured : Bool) (judge : JudgeOutcome)
    (disaster_type : String) (raw : RawData) (location : String) : Decision :=
  if mode = Mode.MOCK then mockDecision disaster_type
  else if !geminiConfigured then _intelligent_fallback disaster_type raw location
  else
    match judge with
    | .timeout => _intelligent_fallback disaster_type raw location
    | .transportError => _intelligent_fallback disaster_type raw location
    | .badParse => _intelligent_fallback disaster_type raw location
    | .parsed p => coerceParsed p

/-! ## Recipient registry and selection (`backend/services/ngo_manager.py`) -/

/-- One registry record (`NGO` dataclass). -/
structure NGO where
  id : String
  name : String
  address : String
  verified : Bool
  disaster_types : List String
  regions : List String
  description : String
deriving DecidableEq

/-- `NGOManager._get_region` (ngo_manager.py lines 133-144): coarse region
tag from coordinates via fixed bounding boxes, tested in order. -/
def _get_region (lat lon : Rat) : String :=
  if 10 ≤ lat ∧ lat ≤ 50 ∧ 100 ≤ lon ∧ lon ≤ 150 then "asia"
  else if 25 ≤ lat ∧ lat ≤ 50 ∧ -130 ≤ lon ∧ lon ≤ -65 then "north_america"
  else if 25 ≤ lat ∧ lat ≤ 50 ∧ -100 ≤ lon ∧ lon ≤ -70 then "us"
  else if -50 ≤ lat ∧ lat ≤ 50 ∧ -180 ≤ lon ∧ lon ≤ 180 then "pacific"
  else "global"

/-- The fuzzy disaster-type filter of `select_recipient`: some declared type
matches the requested one as a case-insensitive substring in either
direction. -/
def supportsType (disasterLower : String) (ngo : NGO) : Bool :=
  ngo.disaster_types.any fun dt =>
    pyIn (lowerS dt) disasterLower || pyIn disasterLower (lowerS dt)

/-- `NGOManager.select_recipient` (ngo_manager.py lines 75-131).  The
`severity` parameter is accepted and ignored exactly as in the source. -/
def select_recipient (ngos : List NGO) (disaster_type : String) (lat lon : Rat)
    (_severity : Option String) : Option NGO :=
  let disasterLower := lowerS disaster_type
  let region := _get_region lat lon
  let candidates := ngos.filter fun n => n.verified && supportsType disasterLower n
  match candidates with
  | [] => none
  | c :: _ =>
    let regionCandidates := candidates.filter fun n =>
      n.regions.contains region || n.regions.contains "global"
    match regionCandidates with
    | r :: _ => some r
    | [] =>
      let globalNgos := candidates.filter fun n => n.regions.contains "global"
      match globalNgos with
      | g :: _ => some g
      | [] => some c

/-- `NGOManager.is_verified`. -/
def is_verified (ngos : List NGO) (address : String) : Bool :=
  ngos.any fun n => n.verified && lowerS n.address = lowerS address

/-- ASCII hex digit (what Python `int(_, 16)` accepts as a digit). -/
def isHexDigitChar (c : Char) : Bool :=
  c.isDigit || ('a' ≤ c && c ≤ 'f') || ('A' ≤ c && c ≤ 'F')

/-- Hex digits with single underscores allowed between digits. -/
def hexTail : List Char → Bool
  | [] => true
  | '_' :: c :: r => isHexDigitChar c && hexTail r
  | c :: r => isHexDigitChar c && hexTail r

/-- Does `int(s, 16)` succeed in Python?  Optional surrounding whitespace
and sign, an optional `0x`/`0X` prefix (optionally followed by one
underscore), then hex digits with single underscores between digits. -/
def pyIntHex16Ok (s : String) : Bool :=
  let l := pyStripL s.data
  let l := match l with
    | '+' :: r => r
    | '-' :: r => r
    | r => r
  let l := match l with
    | '0' :: 'x' :: r => (match r with | '_' :: r2 => r2 | _ => r)
    | '0' :: 'X' :: r => (match r with | '_' :: r2 => r2 | _ => r)
    | r => r
  match l with
  | [] => false
  | c :: r => isHexDigitChar c && hexTail r

/-- `NGOManager.validate_address` (ngo_manager.py lines 146-170):
well-formedness of the 0x-prefixed 42-character hex address plus registry
verification, with the human-readable error of the first failing check. -/
def validate_address (ngos : List NGO) (address : String) : Bool × Option String :=
  if address = "" then (false, some "Address is empty")
  else
    let address := pyStrip address
    if !leadsWith "0x".data address.data then
      (false, some "Address must start with 0x")
    else if address.length ≠ 42 then
      (false, some ("Address must be 42 characters (got " ++
        Nat.repr address.length ++ ")"))
    else if !pyIntHex16Ok (String.mk (address.data.drop 2)) then
      (false, some "Address contains invalid hex characters")
    else if !is_verified ngos address then
      (false, some ("Address " ++ address ++ " is not a verified NGO wallet"))
    else (true, none)

/-! ## Normalizer / fingerprinter and payout pipeline (`backend/main.py`) -/

/-- A normalized event (`SourceEvent` dataclass of ingestion.py);
coordinates are Python floats, modelled as rationals. -/
structure SourceEvent where
  source : String
  disaster_type : String
  description : String
  lat : Rat
  lon : Rat
  raw : RawData := {}
  severity : Option String := none
deriving DecidableEq

/-- `_norm` (main.py lines 421-424): strip, lower-case, collapse internal
whitespace runs to single spaces. -/
def _norm (s : String) : String :=
  String.mk (collapseWs ((pyStripL s.data).map Char.toLower))

/-- `_trigger_bucket` (main.py lines 426-438): keyword bucketing of free
text disaster types; every keyword is a substring probe. -/
def _trigger_bucket (disaster_type : String) : String :=
  let t := _norm disaster_type
  if pyIn "earthquake" t || pyIn "quake" t || pyIn "eq" t || pyIn "seismic" t then
    "quake"
  else if pyIn "wildfire" t || pyIn "wildfires" t || pyIn "fire" t ||
      pyIn "volcano" t || pyIn "volcanoes" t || pyIn "thermal" t then
    "fire"
  else if pyIn "hurricane" t || pyIn "cyclone" t || pyIn "typhoon" t ||
      pyIn "storm" t || pyIn "tornado" t || pyIn "flood" t || pyIn "fl" t ||
      pyIn "tsunami" t || pyIn "ts" t then
    "storm"
  else "other"

/-- The byte stream hashed by `_event_id`: the three normalized text fields
followed by the 4-decimal coordinate rendering, exactly as the successive
`h.update(...)` calls feed `hashlib.sha1`. -/
def eventBytes (e : SourceEvent) : List Nat :=
  strBytes (_norm e.source) ++ strBytes (_norm e.disaster_type) ++
    strBytes (_norm e.description) ++ strBytes (fmt4 e.lat ++ "," ++ fmt4 e.lon)

/-- `_event_id` (main.py lines 440-446): first 16 hex characters of the
SHA-1 of the normalized fields. -/
def _event_id (e : SourceEvent) : String :=
  String.mk ((sha1hexChars (eventBytes e)).take 16)

/-- Digits of a numeral as a Nat. -/
def digitsToNat (l : List Char) : Nat :=
  l.foldl (fun a c => a * 10 + (c.toNat - 48)) 0

/-- All characters are ASCII digits. -/
def allDigits (l : List Char) : Bool := l.all Char.isDigit

/-- Python `float(str)` on the common decimal grammar: optional sign,
digits with an optional fractional part, optional exponent.  (`float()`
additionally accepts underscores and inf/nan spellings; the pipeline turns
those inputs into the same terminal `failed_transaction` a parse failure
produces, and no gateway decision emits them.) -/
def pyFloat (s : String) : Option Rat :=
  let l := pyStripL s.data
  let sgn : Int := match l with | '-' :: _ => -1 | _ => 1
  let l := match l with
    | '+' :: r => r
    | '-' :: r => r
    | r => r
  let mant := l.takeWhile fun c => !(c = 'e' || c = 'E')
  let expTail := l.dropWhile fun c => !(c = 'e' || c = 'E')
  let intPart := mant.takeWhile fun c => c ≠ '.'
  let dotTail := mant.dropWhile fun c => c ≠ '.'
  let frac := match dotTail with
    | '.' :: f => f
    | _ => []
  let fracShapeOk : Bool := match dotTail with
    | [] => true
    | '.' :: _ => true
    | _ => false
  if !fracShapeOk || !allDigits intPart || !allDigits frac ||
      (intPart = [] && frac = []) then none
  else
    let expVal : Option Int := match expTail with
      | [] => some 0
      | _ :: r =>
        let esgn : Int := match r with | '-' :: _ => -1 | _ => 1
        let r := match r with
          | '+' :: r2 => r2
          | '-' :: r2 => r2
          | r2 => r2
        if r ≠ [] && allDigits r then some (esgn * digitsToNat r) else none
    match expVal with
    | none => none
    | some e =>
      some ((sgn : Rat) *
        ((digitsToNat intPart : Rat) + (digitsToNat frac : Rat) / (10 ^ frac.length : Rat)) *
        (10 : Rat) ^ e)

/-- The demo transaction hash `"0x" + "e" * 64` standing in for the sink. -/
def mockTxHash : String := "0x" ++ String.mk (List.replicate 64 'e')

/-- One interaction with the disbursement sink: the mock transaction that
stands in for it, or a real `PayoutTransactor.send_payout` call with its
arguments. -/
inductive SinkCall
  | mockTx
  | sendPayout (toAddr : String) (amount : Int) (reason : String)
deriving DecidableEq

/-- Observable outcome of one pipeline run: the terminal status string, the
transaction reference, and the trace of disbursement-sink interactions. -/
structure PipelineOutcome where
  status : String
  tx_hash : Option String
  sink : List SinkCall
deriving DecidableEq

/-- The strict-YES/NO coercion main.py applies to the decision dict
(lines 211-214). -/
def coerceAuth (a : Option String) : String :=
  let auth0 := upperS (pyStrip (a.getD "NO"))
  if auth0 = "YES" || auth0 = "NO" then auth0 else "NO"

/-- `process_event_pipeline` (main.py lines 196-419).  Audit-log and
database writes are elided (pure bookkeeping); the AI decision is the
`decision_data` argument (produced upstream by `get_ai_decision`);
`sinkResult` is the value `PayoutTransactor.send_payout` returns when it is
actually invoked (`none` models both an exception inside the transactor and
its `None` failure return).  `sink` records every disbursement-sink
interaction, mock stand-in included. -/
def process_event_pipeline (mode : Mode) (blockchainConfigured : Bool)
    (ngos : List NGO) (event : SourceEvent) (decision_data : Decision)
    (sinkResult : Option String) : PipelineOutcome :=
  let authorization := coerceAuth decision_data.authorization
  let dec := decision_data.decision.getD "DENY"
  let payoutAmount := decision_data.payout_amount_usdc.getD "0"
  if authorization = "YES" ∧ dec = "PAYOUT" then
    match select_recipient ngos event.disaster_type event.lat event.lon event.severity with
    | none => { status := "failed_no_ngo", tx_hash := none, sink := [] }
    | some ngo =>
      if !(validate_address ngos ngo.address).1 then
        { status := "failed_validation", tx_hash := none, sink := [] }
      else if mode = Mode.MOCK then
        { status := "completed", tx_hash := some mockTxHash, sink := [SinkCall.mockTx] }
      else if !blockchainConfigured then
        { status := "completed", tx_hash := some mockTxHash, sink := [SinkCall.mockTx] }
      else
        match pyFloat payoutAmount with
        | none => { status := "failed_transaction", tx_hash := none, sink := [] }
        | some amt =>
          let amountUnits := pyTrunc (amt * 1000000)
          let reason := "Disaster: " ++ takeS 100 event.description
          let call := SinkCall.sendPayout ngo.address amountUnits reason
          match sinkResult with
          | none => { status := "failed_transaction", tx_hash := none, sink := [call] }
          | some h =>
            if h = "" then { status := "failed_transaction", tx_hash := none, sink := [call] }
            else { status := "completed", tx_hash := some h, sink := [call] }
  else { status := "completed", tx_hash := none, sink := [] }

/-! ## Ingestion switchboard (`backend/services/ingestion.py`) -/

/-- The `httpx` exception taxonomy `_http_status_label` dispatches on. -/
inductive HttpExc
  | statusError (code : Nat)
  | readTimeout
  | connectTimeout
  | connectError
  | networkError
  | otherExc
deriving DecidableEq

/-- `_http_status_label` (ingestion.py lines 34-48): classify a transport
failure into a human-readable per-source status string. -/
def _http_status_label (name : String) (exc : HttpExc) : String :=
  match exc with
  | .statusError code =>
    if code = 401 ∨ code = 403 then name ++ ": Unauthorized (check API key / plan)"
    else if code = 429 then name ++ ": Rate Limited"
    else if code = 406 then name ++ ": Not Acceptable (bad Accept header)"
    else name ++ ": HTTP " ++ Nat.repr code
  | .readTimeout => name ++ ": Timeout"
  | .connectTimeout => name ++ ": Timeout"
  | .connectError => name ++ ": Signal Lost"
  | .networkError => name ++ ": Signal Lost"
  | .otherExc => name ++ ": Signal Lost"

/-- Outcome of one adapter's network fetch: an httpx transport error, a
body that fails feed parsing, or the list of relevant events the adapter
extracts from a good body (the XML/JSON extraction itself carries no logic
any claim touches, so the parsed result is the input). -/
inductive FeedFetch
  | httpError (exc : HttpExc)
  | parseError
  | ok (events : List SourceEvent)
deriving DecidableEq

/-- `IngestionSwitchboard.fetch_gdacs` (ingestion.py lines 115-171) at the
adapter-contract granularity: transport failures become a classified status
with no events; an unparseable body reports "Parse Error". -/
def fetch_gdacs (net : FeedFetch) : List SourceEvent × String :=
  match net with
  | .httpError exc => ([], _http_status_label "GDACS" exc)
  | .parseError => ([], "GDACS: Parse Error")
  | .ok evs =>
    (evs, if evs.length = 0 then "GDACS: No Red/Orange alerts"
      else "GDACS: " ++ Nat.repr evs.length ++ " significant alerts")

/-- `IngestionSwitchboard.fetch_eonet` (ingestion.py lines 173-230).  JSON
decoding happens inside the retried GET, so a decode failure surfaces as
the (classified) exception; hence no separate parse case. -/
def fetch_eonet (net : Except HttpExc (List SourceEvent)) :
    List SourceEvent × String :=
  match net with
  | .error exc => ([], _http_status_label "EONET" exc)
  | .ok evs =>
    (evs, if evs.length = 0 then "EONET: Quiet"
      else "EONET: " ++ Nat.repr evs.length ++ " events")

/-- `IngestionSwitchboard.fetch_nws` (ingestion.py lines 275-405): the
global query, falling back to per-zone point queries when it fails; events
are capped at 20 on the global path. -/
def fetch_nws (globalNet : Except HttpExc (List SourceEvent))
    (pointNets : List (Except HttpExc (List SourceEvent))) :
    List SourceEvent × String :=
  match globalNet with
  | .ok evs =>
    let evs := evs.take 20
    (evs, if evs.length = 0 then "NWS: No warnings"
      else "NWS: " ++ Nat.repr evs.length ++ " significant alerts")
  | .error exc =>
    let evs := pointNets.foldl
      (fun acc r => match r with | .ok es => acc ++ es | .error _ => acc) []
    if evs.length = 0 then ([], _http_status_label "NWS" exc)
    else (evs, "NWS: " ++ Nat.repr evs.length ++ " alerts")

/-- State of the mock scenarios file for `load_mock_scenarios`. -/
inductive MockSource
  | missing
  | parseErr
  | ok (events : List SourceEvent)
deriving DecidableEq

/-- `IngestionSwitchboard.load_mock_scenarios` (ingestion.py lines 407-429). -/
def load_mock_scenarios (m : MockSource) : List SourceEvent × String :=
  match m with
  | .missing => ([], "Mock: scenarios file missing")
  | .parseErr => ([], "Mock: Parse Error")
  | .ok evs => (evs, "Mock: " ++ Nat.repr evs.length ++ " scenarios loaded")

/-- The aggregate ingestion result. -/
structure IngestionResult where
  mode : String
  events : List SourceEvent
  logs : List String
deriving DecidableEq

/-- `IngestionSwitchboard.ingest` (ingestion.py lines 431-450): mock mode
loads the scenario file; live mode runs all three adapters and concatenates
their events and status strings. -/
def ingest (mode : Mode) (mock : MockSource) (gdacs : FeedFetch)
    (eonet : Except HttpExc (List SourceEvent))
    (nwsGlobal : Except HttpExc (List SourceEvent))
    (nwsPoints : List (Except HttpExc (List SourceEvent))) : IngestionResult :=
  if mode = Mode.MOCK then
    let (evs, status) := load_mock_scenarios mock
    { mode := "MOCK", events := evs, logs := [status, "Awaiting simulation trigger"] }
  else
    let (ge, gs) := fetch_gdacs gdacs
    let (ee, es) := fetch_eonet eonet
    let (ne, ns) := fetch_nws nwsGlobal nwsPoints
    { mode := "LIVE", events := ge ++ ee ++ ne, logs := [gs, es, ns] }

/-! ## Helper lemmas -/

/-- The gateway post-condition on a decision dict: decision is PAYOUT
exactly on authorization YES, authorization is exactly YES or NO, and a NO
forces a zero payout amount. -/
abbrev decisionInvariant (d : Decision) : Prop :=
  (d.decision = some "PAYOUT" ↔ d.authorization = some "YES") ∧
  (d.authorization = some "YES" ∨ d.authorization = some "NO") ∧
  (d.authorization = some "NO" → d.payout_amount_usdc = some "0")

/-- Any YES/PAYOUT record satisfies the invariant. -/
theorem decisionInvariant_mk_yes (cs : Option Int) (rs pa : Option String) :
    decisionInvariant ⟨some "YES", some "PAYOUT", cs, rs, pa⟩ := by
  refine ⟨iff_of_true rfl rfl, Or.inl rfl, fun h => ?_⟩
  exact absurd (Option.some.inj h) (by decide)

/-- Any NO/DENY record with zero payout satisfies the invariant. -/
theorem decisionInvariant_mk_no (cs : Option Int) (rs : Option String) :
    decisionInvariant ⟨some "NO", some "DENY", cs, rs, some "0"⟩ := by
  refine ⟨iff_of_false (fun h => ?_) (fun h => ?_), Or.inr rfl, fun _ => rfl⟩
  · exact absurd (Option.some.inj h) (by decide)
  · exact absurd (Option.some.inj h) (by decide)

theorem mockDecision_invariant (dt : String) :
    decisionInvariant (mockDecision dt) := by
  simp only [mockDecision]
  split_ifs <;>
    first
      | exact decisionInvariant_mk_yes _ _ _
      | exact decisionInvariant_mk_no _ _

theorem fallback_invariant (dt : String) (r : RawData) (l : String) :
    decisionInvariant (_intelligent_fallback dt r l) := by
  simp only [_intelligent_fallback]
  split_ifs <;>
    first
      | exact decisionInvariant_mk_yes _ _ _
      | exact decisionInvariant_mk_no _ _

theorem coerceParsed_invariant (p : ParsedJudge) :
    decisionInvariant (coerceParsed p) := by
  unfold coerceParsed decisionInvariant
  by_cases hY : upperS (pyStrip (p.authorization.getD "")) = "YES"
  · simp [hY]
  · by_cases hN : upperS (pyStrip (p.authorization.getD "")) = "NO"
    · simp [hY, hN]
    · simp [hY, hN]

/-- The 40-character length of the hex digest. -/
theorem sha1hexChars_length (m : List Nat) : (sha1hexChars m).length = 40 := by
  unfold sha1hexChars
  rcases h : sha1 m with ⟨a, b, c, d, e⟩
  simp [toHex8]

/-- Fingerprints are 16 characters long. -/
theorem event_id_length (e : SourceEvent) : (_event_id e).length = 16 := by
  unfold _event_id
  show (List.take 16 (sha1hexChars (eventBytes e))).length = 16
  rw [List.length_take, sha1hexChars_length]
  decide


/-- `"%.4f"` renderings agree whenever the rounded values and the signs
agree. -/
theorem fmt4_congr (a b : Rat) (h : rhe4 a = rhe4 b) (hs : a < 0 ↔ b < 0) :
    fmt4 a = fmt4 b := by
  unfold fmt4
  rw [h]
  congr 1
  by_cases ha : a < 0
  · simp [ha, hs.mp ha]
  · have hb : ¬b < 0 := fun hb => ha (hs.mpr hb)
    simp [ha, hb]

/-! ## Claims -/

/-- The gateway post-condition holds on every path of `get_ai_decision`. -/
theorem get_ai_decision_invariant (mode : Mode) (cfg : Bool) (j : JudgeOutcome)
    (dt : String) (r : RawData) (l : String) :
    decisionInvariant (get_ai_decision mode cfg j dt r l) := by
  unfold get_ai_decision
  split_ifs with h1 h2
  · exact mockDecision_invariant dt
  · exact fallback_invariant dt r l
  · cases j with
    | timeout => exact fallback_invariant dt r l
    | transportError => exact fallback_invariant dt r l
    | badParse => exact fallback_invariant dt r l
    | parsed p => exact coerceParsed_invariant p

/-- C2: every Decision value returned by the decision-oracle gateway
(`get_ai_decision`), on every path — deterministic/MOCK mode, live judge
with coercion, and rule-based fallback — satisfies: decision = "PAYOUT" iff
authorization = "YES"; authorization is exactly "YES" or "NO" (any other
judge value is treated as "NO"); and authorization = "NO" implies
payout_amount_usdc = "0". -/
theorem C2_gateway_invariant (mode : Mode) (cfg : Bool) (j : JudgeOutcome)
    (dt : String) (r : RawData) (l : String) :
    decisionInvariant (get_ai_decision mode cfg j dt r l) :=
  get_ai_decision_invariant mode cfg j dt r l

/-- Witness for C2 at a concrete input: a live judge answer with an
out-of-range authorization value still satisfies the invariant. -/
theorem C2_gateway_invariant_witness :
    decisionInvariant (get_ai_decision Mode.LIVE true
      (JudgeOutcome.parsed { authorization := some "maybe" }) "storm" {} "0, 0") :=
  C2_gateway_invariant Mode.LIVE true
    (JudgeOutcome.parsed { authorization := some "maybe" }) "storm" {} "0, 0"

/-- A Python value found under the "magnitude" key.  The feeds put numbers
there, but `raw_data` is `Dict[str, Any]` and the `/analyze` endpoint
accepts arbitrary client-supplied `raw`, so any value is representable:
`num` covers int/float/bool (all comparable with 7.0), `nonNum` (carrying
its rendering, used only by `str(raw_data)`) any value for which
`magnitude >= 7.0` raises TypeError (str, None, list, ...). -/
inductive MagVal
  | num (q : Rat)
  | nonNum (rendering : String)
deriving DecidableEq

/-- The raw-telemetry dict without the numeric-magnitude assumption that
`RawData` bakes in. -/
structure RawDataAny where
  severity : Option String := none
  alert_level : Option String := none
  magnitude : Option MagVal := none
  text : String := ""
deriving DecidableEq

/-- The view of a telemetry dict whose magnitude entry (if any) is
numeric, as the total model `RawData` sees it. -/
def RawDataAny.erase (r : RawDataAny) : RawData :=
  { severity := r.severity, alert_level := r.alert_level,
    magnitude := match r.magnitude with | some (MagVal.num q) => some q | _ => none,
    text := r.text }

/-- The magnitude entry is absent or numeric. -/
def magnitudeNumeric (r : RawDataAny) : Bool :=
  match r.magnitude with
  | some (MagVal.nonNum _) => false
  | _ => true

/-- `_intelligent_fallback` over the unconstrained dict, with its one
failure point explicit: when the quake keyword matches, agent.py line 177
evaluates `magnitude >= 7.0` before `is_red_alert`, so a non-numeric
magnitude raises TypeError there; on every other path the magnitude is
never touched and execution agrees with the total model on the erased
dict. -/
def _intelligent_fallback_checked (disaster_type : String) (raw : RawDataAny)
    (location : String) : Except String Decision :=
  if quakeKw (lowerS disaster_type) && !magnitudeNumeric raw then
    Except.error "TypeError: unorderable types in magnitude comparison"
  else Except.ok (_intelligent_fallback disaster_type raw.erase location)

/-- `get_ai_decision` over the unconstrained telemetry dict: a TypeError
raised by the fallback propagates out of the gateway, since none of the
fallback call sites in agent.py (lines 81, 124, 127, 159) is inside a
try block that would catch it. -/
def get_ai_decision_checked (mode : Mode) (geminiConfigured : Bool)
    (judge : JudgeOutcome) (disaster_type : String) (raw : RawDataAny)
    (location : String) : Except String Decision :=
  if mode = Mode.MOCK then Except.ok (mockDecision disaster_type)
  else if !geminiConfigured then _intelligent_fallback_checked disaster_type raw location
  else
    match judge with
    | .timeout => _intelligent_fallback_checked disaster_type raw location
    | .transportError => _intelligent_fallback_checked disaster_type raw location
    | .badParse => _intelligent_fallback_checked disaster_type raw location
    | .parsed p => Except.ok (coerceParsed p)

/-- Counterexample to C4 as stated: for the quake-keyword type with the
client-suppliable telemetry {"magnitude": "high"}, the rule-based fallback
is not total — it raises — and the gateway propagates the exception after
a judge timeout instead of returning a fallback Decision. -/
theorem C4_gateway_raises_counterexample :
    _intelligent_fallback_checked "earthquake"
        { magnitude := some (MagVal.nonNum "high") } "x" =
      Except.error "TypeError: unorderable types in magnitude comparison" ∧
    get_ai_decision_checked Mode.LIVE true JudgeOutcome.timeout "earthquake"
        { magnitude := some (MagVal.nonNum "high") } "x" =
      Except.error "TypeError: unorderable types in magnitude comparison" :=
  ⟨rfl, rfl⟩

/-- C4 (amended): for every input whose magnitude telemetry is absent or
numeric — the amendment excludes only non-numeric magnitudes on
quake-keyword types, exactly what the counterexample forces — the gateway
never raises: on a timeout, a transport failure, or an unparseable judge
response (and likewise when the judge is not configured at all) it returns
exactly the Decision of the local rule-based fallback, which is total and
fully populated on such inputs. -/
theorem C4_gateway_fallback (dt : String) (raw : RawDataAny) (l : String)
    (hnum : magnitudeNumeric raw = true) :
    get_ai_decision_checked Mode.LIVE true JudgeOutcome.timeout dt raw l =
        Except.ok (_intelligent_fallback dt raw.erase l) ∧
    get_ai_decision_checked Mode.LIVE true JudgeOutcome.transportError dt raw l =
        Except.ok (_intelligent_fallback dt raw.erase l) ∧
    get_ai_decision_checked Mode.LIVE true JudgeOutcome.badParse dt raw l =
        Except.ok (_intelligent_fallback dt raw.erase l) ∧
    (∀ j : JudgeOutcome, get_ai_decision_checked Mode.LIVE false j dt raw l =
        Except.ok (_intelligent_fallback dt raw.erase l)) ∧
    ((_intelligent_fallback dt raw.erase l).authorization.isSome = true ∧
      (_intelligent_fallback dt raw.erase l).decision.isSome = true ∧
      (_intelligent_fallback dt raw.erase l).confidence_score.isSome = true ∧
      (_intelligent_fallback dt raw.erase l).reasoning.isSome = true ∧
      (_intelligent_fallback dt raw.erase l).payout_amount_usdc.isSome = true) := by
  have hfb : _intelligent_fallback_checked dt raw l =
      Except.ok (_intelligent_fallback dt raw.erase l) := by
    unfold _intelligent_fallback_checked
    rw [hnum]
    simp
  refine ⟨hfb, hfb, hfb, fun j => hfb, ?_⟩
  simp only [_intelligent_fallback]
  split_ifs <;> exact ⟨rfl, rfl, rfl, rfl, rfl⟩

/-- A telemetry dict with numeric magnitude 8. -/
def rawMag8 : RawDataAny := { magnitude := some (MagVal.num 8) }

/-- Witness for the amended C4 at a concrete numeric-magnitude input. -/
theorem C4_gateway_fallback_witness :
    get_ai_decision_checked Mode.LIVE true JudgeOutcome.timeout "earthquake"
        rawMag8 "x" =
      Except.ok (_intelligent_fallback "earthquake" rawMag8.erase "x") :=
  (C4_gateway_fallback "earthquake" rawMag8 "x" (by decide)).1

/-- C7: in deterministic (MOCK) mode, "M8.2 Earthquake" buckets to "quake"
and yields authorization YES / decision PAYOUT / amount "8200", while
"minor tremor" (severity green) yields NO / DENY / "0". -/
theorem C7_deterministic_scenarios :
    _trigger_bucket "M8.2 Earthquake" = "quake" ∧
    (get_ai_decision Mode.MOCK true JudgeOutcome.timeout "M8.2 Earthquake"
        { severity := some "red" } "35.68, 139.65").authorization = some "YES" ∧
    (get_ai_decision Mode.MOCK true JudgeOutcome.timeout "M8.2 Earthquake"
        { severity := some "red" } "35.68, 139.65").decision = some "PAYOUT" ∧
    (get_ai_decision Mode.MOCK true JudgeOutcome.timeout "M8.2 Earthquake"
        { severity := some "red" } "35.68, 139.65").payout_amount_usdc = some "8200" ∧
    (get_ai_decision Mode.MOCK true JudgeOutcome.timeout "minor tremor"
        { severity := some "green" } "35.68, 139.65").authorization = some "NO" ∧
    (get_ai_decision Mode.MOCK true JudgeOutcome.timeout "minor tremor"
        { severity := some "green" } "35.68, 139.65").decision = some "DENY" ∧
    (get_ai_decision Mode.MOCK true JudgeOutcome.timeout "minor tremor"
        { severity := some "green" } "35.68, 139.65").payout_amount_usdc = some "0" := by
  decide

/-- C9 (implicit): in MOCK mode the gateway's Decision is a function of
`disaster_type` alone — raw telemetry, location, configuration flag and
judge outcome are all ignored — and any type matching a quake / fire /
storm / flood keyword is authorized YES with one of the four fixed
amounts, regardless of severity. -/
theorem C9_mock_ignores_telemetry :
    (∀ (dt : String) (c1 c2 : Bool) (j1 j2 : JudgeOutcome) (r1 r2 : RawData)
        (l1 l2 : String),
      get_ai_decision Mode.MOCK c1 j1 dt r1 l1 =
        get_ai_decision Mode.MOCK c2 j2 dt r2 l2) ∧
    (∀ dt : String,
      (quakeKw (lowerS dt) || fireKw (lowerS dt) || stormKw (lowerS dt) ||
        floodKwMock (lowerS dt)) = true →
      ∀ (c : Bool) (j : JudgeOutcome) (r : RawData) (l : String),
        (get_ai_decision Mode.MOCK c j dt r l).authorization = some "YES" ∧
        ((get_ai_decision Mode.MOCK c j dt r l).payout_amount_usdc = some "8200" ∨
         (get_ai_decision Mode.MOCK c j dt r l).payout_amount_usdc = some "5600" ∨
         (get_ai_decision Mode.MOCK c j dt r l).payout_amount_usdc = some "9500" ∨
         (get_ai_decision Mode.MOCK c j dt r l).payout_amount_usdc = some "7200")) := by
  constructor
  · intro dt c1 c2 j1 j2 r1 r2 l1 l2
    rfl
  · intro dt h c j r l
    have hg : get_ai_decision Mode.MOCK c j dt r l = mockDecision dt := rfl
    rw [hg]
    simp only [mockDecision]
    by_cases hq : quakeKw (lowerS dt)
    · simp [hq]
    · by_cases hf : fireKw (lowerS dt)
      · simp [hq, hf]
      · by_cases hs : stormKw (lowerS dt)
        · simp [hq, hf, hs]
        · have hfl : floodKwMock (lowerS dt) = true := by
            simp [hq, hf, hs] at h
            exact h
          simp [hq, hf, hs, hfl]

/-- Witness for C9: "Request for aid" contains "eq" as a substring, so even
this minimal-severity event is authorized with a fixed amount in MOCK mode. -/
theorem C9_mock_ignores_telemetry_witness :
    (get_ai_decision Mode.MOCK true JudgeOutcome.timeout "Request for aid"
        { severity := some "green" } "x").authorization = some "YES" ∧
    ((get_ai_decision Mode.MOCK true JudgeOutcome.timeout "Request for aid"
        { severity := some "green" } "x").payout_amount_usdc = some "8200" ∨
     (get_ai_decision Mode.MOCK true JudgeOutcome.timeout "Request for aid"
        { severity := some "green" } "x").payout_amount_usdc = some "5600" ∨
     (get_ai_decision Mode.MOCK true JudgeOutcome.timeout "Request for aid"
        { severity := some "green" } "x").payout_amount_usdc = some "9500" ∨
     (get_ai_decision Mode.MOCK true JudgeOutcome.timeout "Request for aid"
        { severity := some "green" } "x").payout_amount_usdc = some "7200") :=
  C9_mock_ignores_telemetry.2 "Request for aid" (by decide) true
    JudgeOutcome.timeout { severity := some "green" } "x"

/-- C10 (implicit): `_get_region` never returns "us" — the continental-US
box is strictly inside the North-America box tested first — so its result
is always one of asia / north_america / pacific / global, and a recipient
whose regions list is exactly ["us"] can never pass the explicit
region-membership test. -/
theorem C10_region_never_us (lat lon : Rat) :
    (_get_region lat lon = "asia" ∨ _get_region lat lon = "north_america" ∨
      _get_region lat lon = "pacific" ∨ _get_region lat lon = "global") ∧
    (["us"] : List String).contains (_get_region lat lon) = false := by
  unfold _get_region
  split_ifs with h1 h2 h3 h4
  · exact ⟨Or.inl rfl, by decide⟩
  · exact ⟨Or.inr (Or.inl rfl), by decide⟩
  · exact absurd ⟨h3.1, h3.2.1, by linarith [h3.2.2.1], by linarith [h3.2.2.2]⟩ h2
  · exact ⟨Or.inr (Or.inr (Or.inl rfl)), by decide⟩
  · exact ⟨Or.inr (Or.inr (Or.inr rfl)), by decide⟩

/-- `select_recipient` returns `none` exactly when the verified+type filter
is empty: every branch after a nonempty filter produces `some`. -/
theorem select_recipient_eq_none_iff (ngos : List NGO) (dt : String)
    (lat lon : Rat) (sev : Option String) :
    select_recipient ngos dt lat lon sev = none ↔
      ngos.filter (fun n => n.verified && supportsType (lowerS dt) n) = [] := by
  simp only [select_recipient]
  cases hc : ngos.filter (fun n => n.verified && supportsType (lowerS dt) n) with
  | nil => simp
  | cons c cs =>
    simp only [reduceCtorEq, iff_false]
    cases hr : (c :: cs).filter (fun n =>
        n.regions.contains (_get_region lat lon) || n.regions.contains "global") with
    | cons r rs => simp
    | nil =>
      cases hg : (c :: cs).filter (fun n => n.regions.contains "global") with
      | cons g gs => simp
      | nil => simp

/-- The pipeline gate in isolation, for an arbitrary decision dict: the
sink trace stays empty unless the coerced authorization is "YES" and the
decision field is "PAYOUT". -/
theorem pipeline_sink_gate (mode : Mode) (bc : Bool)
    (ngos : List NGO) (e : SourceEvent) (d : Decision) (sr : Option String) :
    ((process_event_pipeline mode bc ngos e d sr).sink = [] ∨
      (coerceAuth d.authorization = "YES" ∧ d.decision.getD "DENY" = "PAYOUT")) ∧
    (¬(coerceAuth d.authorization = "YES" ∧ d.decision.getD "DENY" = "PAYOUT") →
      (process_event_pipeline mode bc ngos e d sr).sink = [] ∧
      (process_event_pipeline mode bc ngos e d sr).tx_hash = none) ∧
    (d.authorization = some "NO" →
      (process_event_pipeline mode bc ngos e d sr).sink = []) := by
  by_cases hgate : coerceAuth d.authorization = "YES" ∧ d.decision.getD "DENY" = "PAYOUT"
  · refine ⟨Or.inr hgate, fun hn => absurd hgate hn, fun hNO => ?_⟩
    exfalso
    rw [hNO] at hgate
    exact absurd hgate.1 (by decide)
  · have hp : process_event_pipeline mode bc ngos e d sr =
        { status := "completed", tx_hash := none, sink := [] } := by
      simp only [process_event_pipeline]
      rw [if_neg hgate]
    exact ⟨Or.inl (by rw [hp]), fun _ => ⟨by rw [hp], by rw [hp]⟩, fun _ => by rw [hp]⟩

/-- C1: for every event processed by the pipeline with the gateway decision
it computes (as main.py does), the disbursement sink — real payout call or
the mock transaction standing in for it — is invoked only when that
decision has authorization "YES" and decision "PAYOUT"; whenever the
decision's authorization is "NO" or its decision differs from "PAYOUT",
the pipeline terminates with an empty sink trace and no transaction. -/
theorem C1_no_disbursement_without_authorization
    (mode : Mode) (bc cfg : Bool) (j : JudgeOutcome) (ngos : List NGO)
    (e : SourceEvent) (loc : String) (sr : Option String) :
    ((process_event_pipeline mode bc ngos e
        (get_ai_decision mode cfg j e.disaster_type e.raw loc) sr).sink ≠ [] →
      (get_ai_decision mode cfg j e.disaster_type e.raw loc).authorization = some "YES" ∧
      (get_ai_decision mode cfg j e.disaster_type e.raw loc).decision = some "PAYOUT") ∧
    ((get_ai_decision mode cfg j e.disaster_type e.raw loc).authorization = some "NO" ∨
        (get_ai_decision mode cfg j e.disaster_type e.raw loc).decision ≠ some "PAYOUT" →
      (process_event_pipeline mode bc ngos e
        (get_ai_decision mode cfg j e.disaster_type e.raw loc) sr).sink = [] ∧
      (process_event_pipeline mode bc ngos e
        (get_ai_decision mode cfg j e.disaster_type e.raw loc) sr).tx_hash = none) := by
  obtain ⟨hiff, hor, htz⟩ :=
    get_ai_decision_invariant mode cfg j e.disaster_type e.raw loc
  rcases hor with hYES | hNO
  · refine ⟨fun _ => ⟨hYES, hiff.mpr hYES⟩, fun hcases => ?_⟩
    rcases hcases with hno | hnp
    · rw [hYES] at hno
      exact absurd (Option.some.inj hno) (by decide)
    · exact absurd (hiff.mpr hYES) hnp
  · have hgate : ¬(coerceAuth (get_ai_decision mode cfg j e.disaster_type e.raw
        loc).authorization = "YES" ∧
        (get_ai_decision mode cfg j e.disaster_type e.raw
          loc).decision.getD "DENY" = "PAYOUT") := by
      intro hg
      rw [hNO] at hg
      exact absurd hg.1 (by decide)
    have h2 := (pipeline_sink_gate mode bc ngos e
      (get_ai_decision mode cfg j e.disaster_type e.raw loc) sr).2.1 hgate
    exact ⟨fun hne => absurd h2.1 hne, fun _ => h2⟩

/-- A non-catastrophic event (type matches no payout keyword). -/
def evPaperwork : SourceEvent :=
  { source := "s", disaster_type := "paperwork", description := "d",
    lat := 0, lon := 0, raw := { severity := some "red" } }

/-- Witness for C1: a denied decision leaves the sink untouched. -/
theorem C1_no_disbursement_witness :
    (process_event_pipeline Mode.MOCK true [] evPaperwork
      (get_ai_decision Mode.MOCK true JudgeOutcome.timeout evPaperwork.disaster_type
        evPaperwork.raw "0, 0") none).sink = [] ∧
    (process_event_pipeline Mode.MOCK true [] evPaperwork
      (get_ai_decision Mode.MOCK true JudgeOutcome.timeout evPaperwork.disaster_type
        evPaperwork.raw "0, 0") none).tx_hash = none :=
  (C1_no_disbursement_without_authorization Mode.MOCK true true JudgeOutcome.timeout
    [] evPaperwork "0, 0" none).2 (Or.inl (by decide))

/-- A verified recipient whose only coverage is "global". -/
def glbNGO : NGO :=
  { id := "ngo-glb", name := "Global Relief",
    address := "0xaaaaaaaaaaaaaaaaaaaaaaaaaaaaaaaaaaaaaaaa", verified := true,
    disaster_types := ["earthquake"], regions := ["global"], description := "global-only" }

/-- A verified recipient whose regions explicitly include "asia". -/
def regNGO : NGO :=
  { id := "ngo-asia", name := "Asia Relief",
    address := "0xbbbbbbbbbbbbbbbbbbbbbbbbbbbbbbbbbbbbbbbb", verified := true,
    disaster_types := ["earthquake"], regions := ["asia"], description := "region-matched" }

/-- C3: the selection is order-dependent, contradicting the claim.  For an
event in the asia region with one region-matched and one global-only
verified recipient, the result is whichever appears first in the registry,
because the "prefer region-specific" filter also admits global coverage
(`region in ngo.regions or "global" in ngo.regions`), leaving the separate
global fallback dead.  With the global-only recipient listed first it is
selected over the region match. -/
theorem C3_selection_order_dependent :
    _get_region 35 139 = "asia" ∧
    regNGO.verified = true ∧ glbNGO.verified = true ∧
    regNGO.regions = ["asia"] ∧ glbNGO.regions = ["global"] ∧
    select_recipient [glbNGO, regNGO] "earthquake" 35 139 none = some glbNGO ∧
    select_recipient [regNGO, glbNGO] "earthquake" 35 139 none = some regNGO := by
  decide

/-- C5: live-mode ingestion degrades per source.  The classifier maps a
connection failure to "Signal Lost", HTTP 429 to "Rate Limited", 401/403 to
"Unauthorized", and read/connect timeouts to "Timeout"; when any one source
fails, `ingest` still returns the other sources' events and status strings
with the failing source's classified status in its slot; and even with
every source failing it returns a well-formed empty result. -/
theorem C5_partial_source_failure :
    (∀ name : String,
      _http_status_label name HttpExc.connectError = name ++ ": Signal Lost" ∧
      _http_status_label name (HttpExc.statusError 429) = name ++ ": Rate Limited" ∧
      _http_status_label name (HttpExc.statusError 401) =
        name ++ ": Unauthorized (check API key / plan)" ∧
      _http_status_label name (HttpExc.statusError 403) =
        name ++ ": Unauthorized (check API key / plan)" ∧
      _http_status_label name HttpExc.readTimeout = name ++ ": Timeout" ∧
      _http_status_label name HttpExc.connectTimeout = name ++ ": Timeout") ∧
    (∀ (exc : HttpExc) (ee ne : List SourceEvent)
        (pts : List (Except HttpExc (List SourceEvent))),
      ingest Mode.LIVE MockSource.missing (FeedFetch.httpError exc) (Except.ok ee)
          (Except.ok ne) pts =
        { mode := "LIVE", events := ee ++ ne.take 20,
          logs := [_http_status_label "GDACS" exc, (fetch_eonet (Except.ok ee)).2,
            (fetch_nws (Except.ok ne) pts).2] }) ∧
    (∀ (exc : HttpExc) (ge ne : List SourceEvent)
        (pts : List (Except HttpExc (List SourceEvent))),
      ingest Mode.LIVE MockSource.missing (FeedFetch.ok ge) (Except.error exc)
          (Except.ok ne) pts =
        { mode := "LIVE", events := ge ++ ne.take 20,
          logs := [(fetch_gdacs (FeedFetch.ok ge)).2, _http_status_label "EONET" exc,
            (fetch_nws (Except.ok ne) pts).2] }) ∧
    (∀ (exc : HttpExc) (ge ee : List SourceEvent),
      ingest Mode.LIVE MockSource.missing (FeedFetch.ok ge) (Except.ok ee)
          (Except.error exc) [] =
        { mode := "LIVE", events := ge ++ ee,
          logs := [(fetch_gdacs (FeedFetch.ok ge)).2, (fetch_eonet (Except.ok ee)).2,
            _http_status_label "NWS" exc] }) ∧
    (∀ a b c : HttpExc,
      ingest Mode.LIVE MockSource.missing (FeedFetch.httpError a) (Except.error b)
          (Except.error c) [] =
        { mode := "LIVE", events := [],
          logs := [_http_status_label "GDACS" a, _http_status_label "EONET" b,
            _http_status_label "NWS" c] }) := by
  refine ⟨fun name => ⟨rfl, rfl, rfl, rfl, rfl, rfl⟩, ?_, ?_, ?_, ?_⟩
  · intro exc ee ne pts
    simp [ingest, fetch_gdacs, fetch_eonet, fetch_nws]
  · intro exc ge ne pts
    simp [ingest, fetch_gdacs, fetch_eonet, fetch_nws]
  · intro exc ge ee
    simp [ingest, fetch_gdacs, fetch_eonet, fetch_nws]
  · intro a b c
    simp [ingest, fetch_gdacs, fetch_eonet, fetch_nws]

/-- C8: `select_recipient` returns none exactly when no verified recipient
supports the disaster type under the fuzzy (case-insensitive, either
direction substring) match; and an authorized decision whose type no
verified recipient supports terminates the pipeline with status
"failed_no_ngo" and an untouched sink. -/
theorem C8_no_verified_recipient :
    (∀ (ngos : List NGO) (dt : String) (lat lon : Rat) (sev : Option String),
      select_recipient ngos dt lat lon sev = none ↔
        ∀ n ∈ ngos, ¬(n.verified = true ∧ supportsType (lowerS dt) n = true)) ∧
    (∀ (mode : Mode) (bc : Bool) (ngos : List NGO) (e : SourceEvent) (d : Decision)
        (sr : Option String),
      coerceAuth d.authorization = "YES" →
      d.decision.getD "DENY" = "PAYOUT" →
      select_recipient ngos e.disaster_type e.lat e.lon e.severity = none →
      process_event_pipeline mode bc ngos e d sr =
        { status := "failed_no_ngo", tx_hash := none, sink := [] }) := by
  constructor
  · intro ngos dt lat lon sev
    rw [select_recipient_eq_none_iff, List.filter_eq_nil_iff]
    constructor
    · intro h n hn hc
      exact absurd (by rw [Bool.and_eq_true]; exact ⟨hc.1, hc.2⟩) (h n hn)
    · intro h n hn hp
      rw [Bool.and_eq_true] at hp
      exact h n hn ⟨hp.1, hp.2⟩
  · intro mode bc ngos e d sr h1 h2 h3
    simp only [process_event_pipeline, h1, h2, h3]
    simp

/-- Witness for C8: an authorized quake event against an empty registry
stops at failed_no_ngo. -/
theorem C8_no_verified_recipient_witness :
    process_event_pipeline Mode.MOCK true []
      { source := "s", disaster_type := "earthquake", description := "d", lat := 0, lon := 0 }
      { authorization := some "YES", decision := some "PAYOUT", confidence_score := some 98,
        reasoning := some "r", payout_amount_usdc := some "8200" } none =
      { status := "failed_no_ngo", tx_hash := none, sink := [] } :=
  C8_no_verified_recipient.2 Mode.MOCK true []
    { source := "s", disaster_type := "earthquake", description := "d", lat := 0, lon := 0 }
    { authorization := some "YES", decision := some "PAYOUT", confidence_score := some 98,
      reasoning := some "r", payout_amount_usdc := some "8200" } none
    (by decide) rfl rfl

/-- C6 (amended): the fingerprint is deterministic and 16 characters long,
and two events whose source/type/description agree after normalization
(strip, lower-case, collapse whitespace) and whose coordinates agree when
rounded to 4 decimal places AND agree in sign produce the same fingerprint.
(The sign condition is forced: the "%.4f" rendering keeps a "-" on negative
values that round to zero, see the counterexample.) -/
theorem C6_fingerprint_stable :
    (∀ e : SourceEvent, _event_id e = _event_id e ∧ (_event_id e).length = 16) ∧
    (∀ e1 e2 : SourceEvent,
      _norm e1.source = _norm e2.source →
      _norm e1.disaster_type = _norm e2.disaster_type →
      _norm e1.description = _norm e2.description →
      rhe4 e1.lat = rhe4 e2.lat → (e1.lat < 0 ↔ e2.lat < 0) →
      rhe4 e1.lon = rhe4 e2.lon → (e1.lon < 0 ↔ e2.lon < 0) →
      _event_id e1 = _event_id e2) := by
  constructor
  · exact fun e => ⟨rfl, event_id_length e⟩
  · intro e1 e2 h1 h2 h3 hlat hslat hlon hslon
    unfold _event_id eventBytes
    rw [h1, h2, h3, fmt4_congr e1.lat e2.lat hlat hslat,
      fmt4_congr e1.lon e2.lon hlon hslon]

/-- An event with latitude -0.00001 (rounds to zero, renders "-0.0000"). -/
def ceNeg : SourceEvent :=
  { source := "s", disaster_type := "t", description := "d",
    lat := Rat.divInt (-1) 100000, lon := 0 }

/-- The same event with latitude +0.00001 (rounds to zero, renders "0.0000"). -/
def cePos : SourceEvent :=
  { source := "s", disaster_type := "t", description := "d",
    lat := Rat.divInt 1 100000, lon := 0 }

/-- Counterexample to C6 as stated: latitudes -0.00001 and 0.00001 agree
when rounded to 4 decimal places (both round to 0), yet the fingerprints
differ, because the code renders the coordinates as "-0.0000" and "0.0000"
before hashing. -/
theorem C6_fingerprint_counterexample :
    rhe4 ceNeg.lat = rhe4 cePos.lat ∧
    fmt4 ceNeg.lat = "-0.0000" ∧ fmt4 cePos.lat = "0.0000" ∧
    _event_id ceNeg ≠ _event_id cePos := by
  refine ⟨by decide, by decide, by decide, by decide⟩

/-- A cosmetic case/whitespace variant of a fire event. -/
def we1 : SourceEvent :=
  { source := " FIRE  Alert ", disaster_type := "Wildfire",
    description := "Big   fire", lat := Rat.divInt 1 2, lon := -3 }

/-- The same logical fire event in canonical rendering. -/
def we2 : SourceEvent :=
  { source := "fire alert", disaster_type := "  wildfire",
    description := "big fire", lat := Rat.divInt 1 2, lon := -3 }

/-- Witness for the amended C6: cosmetic case/whitespace variants of the
same event share a fingerprint. -/
theorem C6_fingerprint_stable_witness : _event_id we1 = _event_id we2 :=
  C6_fingerprint_stable.2 we1 we2
    (by decide) (by decide) (by decide) (by decide) (by decide) (by decide) (by decide)
